import Mathlib

/-!
# Shallow embedding of the `rust-routeviews` BGPStream wrapper

This file embeds the decode/iteration core of the repository
(`src/lib.rs`, `src/record.rs`, `src/element.rs`, `src/stream.rs`) in Lean 4
and proves the frozen claims about it.

Modelling conventions:
* Machine integers (`u8`, `u16`, `u32`) become `Nat`; the only place where
  wrap-around matters (`as u32` in `BgpStream::new`) is modelled explicitly
  with `% 2 ^ 32`.
* `OffsetDateTime` is modelled as the number of microseconds since the Unix
  epoch, a `Nat`.  `OffsetDateTime::from_unix_timestamp(secs as i64)` never
  fails for a `u32` seconds value (the `time` crate accepts all years up to
  9999, far beyond `u32::MAX` seconds ≈ year 2106), so the conversion is
  modelled as total: `secs * 1000000 + micros`.
* The tagged C unions of `libbgpstream-sys` (`union_bgpstream_ip_addr_t`,
  `union_bgpstream_pfx_t`, `bgpstream_as_path_seg_t`, `bgpstream_elem_t`)
  become structures holding the discriminant together with every payload the
  Rust code may read from them.
* Fallible Rust functions returning `Result` become `Except BgpStreamError`.
* The native stream handle (`NonNull<bgpstream_t>`) is modelled as the list
  of outcomes that future `bgpstream_get_next_record` calls will produce, and
  a native record's element sequence as the list of outcomes that future
  `bgpstream_record_get_next_elem` calls will produce (the sentinel-free part
  of each sequence; once the list is exhausted the primitive reports "no
  more", i.e. result `0`).
-/

deriving instance DecidableEq for Except

/-- Mirror of the `BgpStreamError` enum in `src/lib.rs` (payloads that carry
only display information — `PrefixLenError`, `NulError`, `ComponentRange` and
the interface-name strings — are dropped, the variant tag is kept). -/
inductive BgpStreamError where
  | Create
  | Start
  | AddFilter
  | AddRecentInterval
  | AddInterval
  | AddRibPeriod
  | GetNextRecord
  | GetNextRecordNull
  | RecordCorrupted
  | RecordUnsupported
  | RecordSourceEmptyOrCorrupted
  | UnknownRecordStatus
  | GetNextElement
  | GetNextElementNull
  | UnknownElementType
  | InvalidIpAddress
  | ElementIsDetached
  | UnknownPeerState
  | UnknownOriginType
  | InterfaceNotFound
  | InterfaceOptionNotFound
  | SetInterfaceOption
  | InvalidMaskLen
  | StringContainsNull
  | Timestamp
  deriving DecidableEq, Repr

/-! ## Numeric constants from the external `libbgpstream-sys` crate

The numeric values of these C enum constants live in the external
`libbgpstream-sys` bindings, not under `src/`.  They are modelled from the
spec: the address versions are `4` and `6` ("reads an explicit version
discriminant; `4` → …; `6` → …"), and the peer-state codes are
`Idle(0)…Unknown(8)` in the spec's listed order.  For the element-type,
origin-type, AS-path-segment-type and record-status constants the spec fixes
no numbers; only their pairwise distinctness is ever used. -/

/-- Modelled from the spec: `BGPSTREAM_ADDR_VERSION_IPV4` (external
`libbgpstream-sys` constant), the discriminant `4`. -/
def ADDR_VERSION_IPV4 : Nat := 4

/-- Modelled from the spec: `BGPSTREAM_ADDR_VERSION_IPV6` (external
`libbgpstream-sys` constant), the discriminant `6`. -/
def ADDR_VERSION_IPV6 : Nat := 6

/-- Modelled from the spec: native peer-state code for `Idle`. -/
def ELEM_PEERSTATE_IDLE : Nat := 0
/-- Modelled from the spec: native peer-state code for `Connect`. -/
def ELEM_PEERSTATE_CONNECT : Nat := 1
/-- Modelled from the spec: native peer-state code for `Active`. -/
def ELEM_PEERSTATE_ACTIVE : Nat := 2
/-- Modelled from the spec: native peer-state code for `OpenSent`. -/
def ELEM_PEERSTATE_OPENSENT : Nat := 3
/-- Modelled from the spec: native peer-state code for `OpenConfirm`. -/
def ELEM_PEERSTATE_OPENCONFIRM : Nat := 4
/-- Modelled from the spec: native peer-state code for `Established`. -/
def ELEM_PEERSTATE_ESTABLISHED : Nat := 5
/-- Modelled from the spec: native peer-state code for `Clearing`. -/
def ELEM_PEERSTATE_CLEARING : Nat := 6
/-- Modelled from the spec: native peer-state code for `Deleted`. -/
def ELEM_PEERSTATE_DELETED : Nat := 7
/-- Modelled from the spec: native peer-state code for `Unknown`. -/
def ELEM_PEERSTATE_UNKNOWN : Nat := 8

/-- Modelled from the spec: `BGPSTREAM_ELEM_BGP_UPDATE_ORIGIN_IGP`. -/
def ORIGIN_IGP : Nat := 0
/-- Modelled from the spec: `BGPSTREAM_ELEM_BGP_UPDATE_ORIGIN_EGP`. -/
def ORIGIN_EGP : Nat := 1
/-- Modelled from the spec: `BGPSTREAM_ELEM_BGP_UPDATE_ORIGIN_INCOMPLETE`. -/
def ORIGIN_INCOMPLETE : Nat := 2

/-- Modelled from the spec: `BGPSTREAM_ELEM_TYPE_RIB`. -/
def ELEM_TYPE_RIB : Nat := 1
/-- Modelled from the spec: `BGPSTREAM_ELEM_TYPE_ANNOUNCEMENT`. -/
def ELEM_TYPE_ANNOUNCEMENT : Nat := 2
/-- Modelled from the spec: `BGPSTREAM_ELEM_TYPE_WITHDRAWAL`. -/
def ELEM_TYPE_WITHDRAWAL : Nat := 3
/-- Modelled from the spec: `BGPSTREAM_ELEM_TYPE_PEERSTATE`. -/
def ELEM_TYPE_PEERSTATE : Nat := 4

/-- Modelled from the spec: `BGPSTREAM_AS_PATH_SEG_ASN`, the segment-type tag
marking a single AS number. -/
def AS_PATH_SEG_ASN : Nat := 1

/-- Modelled from the spec: `BGPSTREAM_RECORD_STATUS_VALID_RECORD`. -/
def RECORD_STATUS_VALID_RECORD : Nat := 0
/-- Modelled from the spec: `BGPSTREAM_RECORD_STATUS_FILTERED_SOURCE`. -/
def RECORD_STATUS_FILTERED_SOURCE : Nat := 1
/-- Modelled from the spec: `BGPSTREAM_RECORD_STATUS_EMPTY_SOURCE`. -/
def RECORD_STATUS_EMPTY_SOURCE : Nat := 2
/-- Modelled from the spec: `BGPSTREAM_RECORD_STATUS_OUTSIDE_TIME_INTERVAL`. -/
def RECORD_STATUS_OUTSIDE_TIME_INTERVAL : Nat := 3
/-- Modelled from the spec: `BGPSTREAM_RECORD_STATUS_CORRUPTED_SOURCE`. -/
def RECORD_STATUS_CORRUPTED_SOURCE : Nat := 4
/-- Modelled from the spec: `BGPSTREAM_RECORD_STATUS_CORRUPTED_RECORD`. -/
def RECORD_STATUS_CORRUPTED_RECORD : Nat := 5
/-- Modelled from the spec: `BGPSTREAM_RECORD_STATUS_UNSUPPORTED_RECORD`. -/
def RECORD_STATUS_UNSUPPORTED_RECORD : Nat := 6

/-! ## IP addresses and prefixes (`std::net::IpAddr`, `ipnet::IpNet`) -/

/-- Mirror of `std::net::IpAddr`: a v4 address is built from the `u32`
`s_addr`, a v6 address from the 16-byte `__u6_addr8` array. -/
inductive IpAddr where
  | V4 (addr : Nat)
  | V6 (addr : List Nat)
  deriving DecidableEq, Repr

/-- The address family's bit width: 32 for IPv4, 128 for IPv6 (the maximum
valid mask length accepted by `ipnet`). -/
def IpAddr.maxMaskLen : IpAddr → Nat
  | .V4 _ => 32
  | .V6 _ => 128

/-- Mirror of `ipnet::IpNet`: an address together with a mask length.
(The source field is called `prefix`; that word is unavailable as a Lean
identifier, so the model shortens it to `pfx`/`mask_len` throughout.) -/
structure IpNet where
  addr : IpAddr
  mask_len : Nat
  deriving DecidableEq, Repr

/-- Mirror of `ipnet::IpNet::new(ip, prefix_len)`: fails with
`PrefixLenError` (modelled as `Unit`) when the mask length exceeds the
address family's bit width. -/
def IpNet.new (ip : IpAddr) (mask_len : Nat) : Except Unit IpNet :=
  if mask_len ≤ ip.maxMaskLen then .ok ⟨ip, mask_len⟩ else .error ()

/-- Mirror of `union_bgpstream_ip_addr_t`: a tagged C union holding a version
discriminant plus the IPv4 payload (`bs_ipv4.addr.s_addr`, a `u32`) and the
IPv6 payload (`bs_ipv6.addr.__in6_u.__u6_addr8`, 16 bytes). -/
structure RawIp where
  version : Nat
  v4 : Nat
  v6 : List Nat
  deriving DecidableEq, Repr

/-- Mirror of `parse_bgpstream_ip` in `src/lib.rs`: dispatch on the version
discriminant; `ADDR_VERSION_IPV4` reads the 4-byte payload,
`ADDR_VERSION_IPV6` the 16-byte payload, anything else is
`InvalidIpAddress`. -/
def parse_bgpstream_ip (ip : RawIp) : Except BgpStreamError IpAddr :=
  if ip.version = ADDR_VERSION_IPV4 then .ok (.V4 ip.v4)
  else if ip.version = ADDR_VERSION_IPV6 then .ok (.V6 ip.v6)
  else .error .InvalidIpAddress

/-- Mirror of `union_bgpstream_pfx_t`: the address union plus the `mask_len`
byte. -/
structure RawPfx where
  address : RawIp
  mask_len : Nat
  deriving DecidableEq, Repr

/-- Mirror of `parse_bgpstream_prefix` in `src/lib.rs` (renamed `pfx` because
the source's name is not a legal Lean identifier): decode the address, then
build the net; a `PrefixLenError` from `IpNet::new` is converted (via the
`#[from]` attribute on the error enum) into `InvalidMaskLen`. -/
def parse_bgpstream_pfx (p : RawPfx) : Except BgpStreamError IpNet :=
  match parse_bgpstream_ip p.address with
  | .error e => .error e
  | .ok ip =>
    match IpNet.new ip p.mask_len with
    | .ok net => .ok net
    | .error _ => .error .InvalidMaskLen

/-! ## Peer states and origin types (`src/element.rs`) -/

/-- Mirror of the `PeerState` enum in `src/element.rs`. -/
inductive PeerState where
  | Idle
  | Connect
  | Active
  | OpenSent
  | OpenConfirm
  | Established
  | Clearing
  | Deleted
  | Unknown
  deriving DecidableEq, Repr

/-- Mirror of `impl TryFrom<u32> for PeerState` in `src/element.rs`, arm for
arm in the source's order. -/
def PeerState.tryFrom (value : Nat) : Except BgpStreamError PeerState :=
  if value = ELEM_PEERSTATE_ACTIVE then .ok .Active
  else if value = ELEM_PEERSTATE_CLEARING then .ok .Clearing
  else if value = ELEM_PEERSTATE_CONNECT then .ok .Connect
  else if value = ELEM_PEERSTATE_DELETED then .ok .Deleted
  else if value = ELEM_PEERSTATE_ESTABLISHED then .ok .Established
  else if value = ELEM_PEERSTATE_IDLE then .ok .Idle
  else if value = ELEM_PEERSTATE_OPENCONFIRM then .ok .OpenConfirm
  else if value = ELEM_PEERSTATE_OPENSENT then .ok .OpenSent
  else if value = ELEM_PEERSTATE_UNKNOWN then .ok .Unknown
  else .error .UnknownPeerState

/-- The native code each `PeerState` value came from (the inverse direction
of `TryFrom<u32>`; not present in the source, used to state invertibility). -/
def PeerState.code : PeerState → Nat
  | .Idle => ELEM_PEERSTATE_IDLE
  | .Connect => ELEM_PEERSTATE_CONNECT
  | .Active => ELEM_PEERSTATE_ACTIVE
  | .OpenSent => ELEM_PEERSTATE_OPENSENT
  | .OpenConfirm => ELEM_PEERSTATE_OPENCONFIRM
  | .Established => ELEM_PEERSTATE_ESTABLISHED
  | .Clearing => ELEM_PEERSTATE_CLEARING
  | .Deleted => ELEM_PEERSTATE_DELETED
  | .Unknown => ELEM_PEERSTATE_UNKNOWN

/-- Mirror of the `OriginType` enum in `src/element.rs`. -/
inductive OriginType where
  | Igp
  | Egp
  | Incomplete
  deriving DecidableEq, Repr

/-- Mirror of `impl TryFrom<u32> for OriginType` in `src/element.rs`. -/
def OriginType.tryFrom (value : Nat) : Except BgpStreamError OriginType :=
  if value = ORIGIN_EGP then .ok .Egp
  else if value = ORIGIN_IGP then .ok .Igp
  else if value = ORIGIN_INCOMPLETE then .ok .Incomplete
  else .error .UnknownOriginType

/-! ## AS paths and communities (`src/element.rs`) -/

/-- Mirror of the `AsSegment` enum in `src/element.rs`. -/
inductive AsSegment where
  | Num (asn : Nat)
  | Set (list : List Nat)
  deriving DecidableEq, Repr

/-- Mirror of `bgpstream_as_path_seg_t`: a tagged C union carrying the
segment-type tag, the single-ASN payload (`asn.asn`), and the AS-SET payload
(`set.asn_cnt` plus the inline `set.asn` array, whose words the Rust code
reads with `read_unaligned` at offsets `0..asn_cnt`). -/
structure RawSeg where
  type_ : Nat
  asn : Nat
  asn_cnt : Nat
  set_asns : List Nat
  deriving DecidableEq, Repr

/-- Mirror of `parse_as_path_seg` in `src/element.rs`: an `ASN`-tagged
segment is a single AS number; any other tag is an AS-SET, read as exactly
`asn_cnt` words from the inline array in encounter order (reading index `i`
of the modelled memory is `set_asns.getD i 0`). -/
def parse_as_path_seg (seg : RawSeg) : AsSegment :=
  if seg.type_ = AS_PATH_SEG_ASN then .Num seg.asn
  else .Set ((List.range seg.asn_cnt).map fun i => seg.set_asns.getD i 0)

/-- Mirror of `extract_as_path` in `src/element.rs`: the native segment
iterator is reset and then yields one segment per call until the null
sentinel; the argument list models exactly the segments before the sentinel,
so the loop parses each of them in order. -/
def extract_as_path (segs : List RawSeg) : List AsSegment :=
  segs.map parse_as_path_seg

/-- Mirror of `extract_communities` in `src/element.rs`: communities are read
at indices `0, 1, 2, …` until the null sentinel, each entry an
`(asn, value)` pair of `u16`s appended in order; the argument models the
sentinel-free sequence, so the loop returns it unchanged. -/
def extract_communities (comms : List (Nat × Nat)) : List (Nat × Nat) :=
  comms

/-! ## Elements (`src/element.rs`) -/

/-- Mirror of the `Update` payload struct in `src/element.rs` (`prefix`
renamed `pfx`, see `IpNet`). -/
structure Update where
  pfx : IpNet
  next_hop : IpAddr
  as_path : List AsSegment
  communities : List (Nat × Nat)
  origin_type : Option OriginType
  med : Option Nat
  local_pref : Option Nat
  deriving DecidableEq, Repr

/-- Mirror of the `ElementType` enum in `src/element.rs` (field names `from`/
`to` of the `PeerState` variant become positional arguments). -/
inductive ElementType where
  | RIB (u : Update)
  | Announcement (u : Update)
  | Withdrawal (p : IpNet)
  | PeerState (fromState toState : PeerState)
  deriving DecidableEq, Repr

/-- Mirror of the `Element` struct in `src/element.rs` (`time` is microseconds
since the epoch, see the header). -/
structure Element where
  time : Nat
  peer_ip : IpAddr
  peer_asn : Nat
  e : ElementType
  deriving DecidableEq, Repr

/-- Mirror of `Element::prefix` in `src/element.rs` (renamed `pfx`, see
`IpNet`): the update's net for RIB entries and announcements, the withdrawn
net for withdrawals, nothing for peer-state changes. -/
def Element.pfx (self : Element) : Option IpNet :=
  match self.e with
  | .RIB u | .Announcement u => some u.pfx
  | .Withdrawal p => some p
  | .PeerState _ _ => none

/-- Mirror of `bgpstream_elem_t`: every field of the C struct that
`Element::new`, `extract_as_path` and `extract_communities` read. -/
structure RawElem where
  orig_time_sec : Nat
  orig_time_usec : Nat
  peer_ip : RawIp
  peer_asn : Nat
  type_ : Nat
  pfx : RawPfx
  nexthop : RawIp
  as_path : List RawSeg
  communities : List (Nat × Nat)
  has_origin : Nat
  origin : Nat
  has_med : Nat
  med : Nat
  has_local_pref : Nat
  local_pref : Nat
  old_state : Nat
  new_state : Nat
  deriving DecidableEq, Repr

/-- The decode portion of `Element::new` in `src/element.rs` (everything
after the element pointer has been pulled and null-checked), with the parent
record's timestamp passed in.  The `?` operator of the source becomes an
explicit match on each fallible step, in the source's evaluation order. -/
def Element.ofRaw (recordTime : Nat) (elem : RawElem) : Except BgpStreamError Element :=
  let time :=
    if elem.orig_time_sec = 0 then recordTime
    else elem.orig_time_sec * 1000000 + elem.orig_time_usec
  match parse_bgpstream_ip elem.peer_ip with
  | .error er => .error er
  | .ok peer_ip =>
    let peer_asn := elem.peer_asn
    if elem.type_ = ELEM_TYPE_ANNOUNCEMENT ∨ elem.type_ = ELEM_TYPE_RIB then
      match parse_bgpstream_pfx elem.pfx with
      | .error er => .error er
      | .ok p =>
        match parse_bgpstream_ip elem.nexthop with
        | .error er => .error er
        | .ok next_hop =>
          match (if elem.has_origin ≠ 0 then
                   (OriginType.tryFrom elem.origin).map some
                 else .ok none) with
          | .error er => .error er
          | .ok origin_type =>
            let update : Update :=
              { pfx := p
                next_hop := next_hop
                as_path := extract_as_path elem.as_path
                communities := extract_communities elem.communities
                origin_type := origin_type
                med := if elem.has_med ≠ 0 then some elem.med else none
                local_pref := if elem.has_local_pref ≠ 0 then some elem.local_pref else none }
            .ok { time := time, peer_ip := peer_ip, peer_asn := peer_asn,
                  e := if elem.type_ = ELEM_TYPE_ANNOUNCEMENT then
                         .Announcement update
                       else .RIB update }
    else if elem.type_ = ELEM_TYPE_PEERSTATE then
      match PeerState.tryFrom elem.old_state with
      | .error er => .error er
      | .ok fromState =>
        match PeerState.tryFrom elem.new_state with
        | .error er => .error er
        | .ok toState =>
          .ok { time := time, peer_ip := peer_ip, peer_asn := peer_asn,
                e := .PeerState fromState toState }
    else if elem.type_ = ELEM_TYPE_WITHDRAWAL then
      match parse_bgpstream_pfx elem.pfx with
      | .error er => .error er
      | .ok p =>
        .ok { time := time, peer_ip := peer_ip, peer_asn := peer_asn,
              e := .Withdrawal p }
    else .error .UnknownElementType

/-! ## Records and the stream (`src/record.rs`, `src/stream.rs`) -/

/-- One outcome of `bgpstream_record_get_next_elem` on a record: a negative
result (`fail`), result `1` with a null pointer (`nullElem`), or result `1`
with a raw element to decode.  Result `0` ("no more elements") is modelled by
the end of the outcome list. -/
inductive RawElemPull where
  | fail
  | nullElem
  | elem (e : RawElem)
  deriving DecidableEq, Repr

/-- The raw data behind a successful `bgpstream_get_next_record`: the record's
status word, its timestamp fields, and the element-pull outcomes it holds. -/
structure RawRecord where
  status : Nat
  time_sec : Nat
  time_usec : Nat
  elems : List RawElemPull
  deriving DecidableEq, Repr

/-- One outcome of `bgpstream_get_next_record`: result `0` (`endOfStream`),
a negative result (`fail`), result positive with a null pointer
(`nullRecord`), or a pulled record. -/
inductive RawPull where
  | endOfStream
  | fail
  | nullRecord
  | record (r : RawRecord)
  deriving DecidableEq, Repr

/-- Mirror of the `Record` view in `src/record.rs` after construction: the
decoded timestamp (microseconds since the epoch), and the not-yet-pulled
element outcomes of the underlying native record (in place of the raw
`p_record` pointer). -/
structure Record where
  time : Nat
  elems : List RawElemPull
  deriving DecidableEq, Repr

/-- Mirror of `Record::new` in `src/record.rs`.  The native handle is the
list of future pull outcomes; each call consumes its head (an empty list
behaves like result `0`, end of the underlying source).  Status
classification follows the source's match arm for arm; the final wildcard
arm is every status word outside the seven named constants. -/
def Record.new : List RawPull → Except BgpStreamError (Option Record) × List RawPull
  | [] => (.ok none, [])
  | .endOfStream :: rest => (.ok none, rest)
  | .fail :: rest => (.error .GetNextRecord, rest)
  | .nullRecord :: rest => (.error .GetNextRecordNull, rest)
  | .record r :: rest =>
    (if r.status = RECORD_STATUS_VALID_RECORD then
       .ok (some { time := r.time_sec * 1000000 + r.time_usec, elems := r.elems })
     else if r.status = RECORD_STATUS_FILTERED_SOURCE ∨
             r.status = RECORD_STATUS_EMPTY_SOURCE ∨
             r.status = RECORD_STATUS_CORRUPTED_SOURCE then
       .error .RecordSourceEmptyOrCorrupted
     else if r.status = RECORD_STATUS_OUTSIDE_TIME_INTERVAL then
       .ok none
     else if r.status = RECORD_STATUS_CORRUPTED_RECORD then
       .error .RecordCorrupted
     else if r.status = RECORD_STATUS_UNSUPPORTED_RECORD then
       .error .RecordUnsupported
     else
       .error .UnknownRecordStatus,
     rest)

/-- The pull half of `Element::new` in `src/element.rs`
(`bgpstream_record_get_next_elem` plus the null check), composed with the
decode half `Element.ofRaw`; returns the advanced record view alongside the
result, mirroring the in-place mutation of the native element iterator. -/
def Element.new (r : Record) : Except BgpStreamError (Option Element) × Record :=
  match r.elems with
  | [] => (.ok none, r)
  | .fail :: rest => (.error .GetNextElement, { r with elems := rest })
  | .nullElem :: rest => (.error .GetNextElementNull, { r with elems := rest })
  | .elem e :: rest =>
    (match Element.ofRaw r.time e with
     | .ok el => .ok (some el)
     | .error er => .error er,
     { r with elems := rest })

/-- Mirror of `Record::next_element` in `src/record.rs`: delegates to
`Element::new`. -/
def Record.next_element (r : Record) : Except BgpStreamError (Option Element) × Record :=
  Element.new r

/-- Mirror of the `BgpStream` struct in `src/stream.rs`: the native handle
`bs` is modelled as the list of future record-pull outcomes, and
`current_record` is the buffered record used by the `Iterator`
implementation. -/
structure BgpStream where
  source : List RawPull
  current_record : Option Record
  deriving DecidableEq, Repr

/-- Mirror of `BgpStream::next_record` in `src/stream.rs`: if a record is
buffered, return it and clear the buffer (no pull from the native source);
otherwise delegate to `Record::new`. -/
def BgpStream.next_record (s : BgpStream) :
    Except BgpStreamError (Option Record) × BgpStream :=
  match s.current_record with
  | some r => (.ok (some r), { s with current_record := none })
  | none =>
    match Record.new s.source with
    | (res, src) => (res, { source := src, current_record := none })

/-- Fuel-indexed body of `<BgpStream as Iterator>::next` in `src/stream.rs`.
The Rust `loop` re-enters at most once per source entry it consumes plus once
per record exhaustion, so the recursion is given explicit fuel; `BgpStream.next`
supplies enough fuel for the loop to run to completion (see
`BgpStream.measureFn` and `BgpStream.nextFuel_eq_of_lt`), so the fuel-zero
branch is never taken from `BgpStream.next`.
With the buffer empty, `self.next_record()` in the loop body is exactly
`Record::new` on the native source. -/
def BgpStream.nextFuel :
    Nat → BgpStream → Option (Except BgpStreamError Element) × BgpStream
  | 0, s => (none, s)
  | fuel + 1, s =>
    match s.current_record with
    | none =>
      match Record.new s.source with
      | (.ok (some r), src) => BgpStream.nextFuel fuel ⟨src, some r⟩
      | (.ok none, src) => (none, ⟨src, none⟩)
      | (.error e, src) => (some (.error e), ⟨src, none⟩)
    | some r =>
      match Record.next_element r with
      | (.ok (some el), r') => (some (.ok el), ⟨s.source, some r'⟩)
      | (.ok none, _) => BgpStream.nextFuel fuel ⟨s.source, none⟩
      | (.error e, r') => (some (.error e), ⟨s.source, some r'⟩)

/-- An upper bound on the number of loop iterations `Iterator::next` can make
from a given state: every re-entry either consumed a source entry or moved
from an exhausted record to the empty buffer. -/
def BgpStream.measureFn (s : BgpStream) : Nat :=
  2 * s.source.length +
    (match s.current_record with
     | none => 1
     | some r => if r.elems.isEmpty then 2 else 0)

/-- Mirror of `<BgpStream as Iterator>::next` in `src/stream.rs`: run the
loop with sufficient fuel. -/
def BgpStream.next (s : BgpStream) :
    Option (Except BgpStreamError Element) × BgpStream :=
  BgpStream.nextFuel (BgpStream.measureFn s + 1) s

/-! ## Interval application in `BgpStream::new` (`src/stream.rs`) -/

/-- Rust's `as u32` cast applied to an `i64`: keep the low 32 bits.  For
`t : Int` this is `t % 2 ^ 32` (Lean's `Int.emod` is non-negative for a
positive modulus, matching two's-complement truncation). -/
def i64_as_u32 (t : Int) : Nat := (t % (2 ^ 32)).toNat

/-- Mirror of the `FilterInterval::Interval { start, stop }` branch of
`BgpStream::new` in `src/stream.rs`: the pair `(start, stop)` of `u32`
arguments passed to `bgpstream_add_interval_filter`.  Each `OffsetDateTime`
is represented by its `unix_timestamp()` (an `Int`); `stop = None` becomes
`unwrap_or(0)`, the sentinel `0`. -/
def interval_filter_args (start : Int) (stop : Option Int) : Nat × Nat :=
  (i64_as_u32 start, (stop.map i64_as_u32).getD 0)

/-! ## Sample raw data used by concrete counterexamples and witnesses -/

/-- A raw IPv4 address value (version discriminant 4, payload `0xC0000201`,
i.e. 192.0.2.1). -/
def sampleIp4 : RawIp := { version := 4, v4 := 3221226001, v6 := [] }

/-- A raw withdrawal element: IPv4 peer, IPv4 withdrawn net `192.0.2.0/24`,
no origin timestamp of its own. -/
def sampleWithdrawElem : RawElem :=
  { orig_time_sec := 0
    orig_time_usec := 0
    peer_ip := sampleIp4
    peer_asn := 64512
    type_ := ELEM_TYPE_WITHDRAWAL
    pfx := { address := { version := 4, v4 := 3221226000, v6 := [] }, mask_len := 24 }
    nexthop := sampleIp4
    as_path := []
    communities := []
    has_origin := 0
    origin := 0
    has_med := 0
    med := 0
    has_local_pref := 0
    local_pref := 0
    old_state := 0
    new_state := 0 }

/-- The decoded form of `sampleWithdrawElem` inside a record with timestamp
`1000000` (the element has no origin timestamp, so it inherits it). -/
def sampleWithdrawElement : Element :=
  { time := 1000000
    peer_ip := .V4 3221226001
    peer_asn := 64512
    e := .Withdrawal { addr := .V4 3221226000, mask_len := 24 } }

/-- A pulled record with status `VALID_RECORD` at second 1, holding exactly
one decodable element. -/
def sampleValidPull : RawPull :=
  .record { status := RECORD_STATUS_VALID_RECORD
            time_sec := 1
            time_usec := 0
            elems := [.elem sampleWithdrawElem] }

/-- A pulled record with status `OUTSIDE_TIME_INTERVAL`. -/
def sampleOutsidePull : RawPull :=
  .record { status := RECORD_STATUS_OUTSIDE_TIME_INTERVAL
            time_sec := 0
            time_usec := 0
            elems := [] }

/-- A pulled record with status `CORRUPTED_RECORD`. -/
def sampleCorruptedPull : RawPull :=
  .record { status := RECORD_STATUS_CORRUPTED_RECORD
            time_sec := 0
            time_usec := 0
            elems := [] }

/-! ## C3 — address and net decoders -/

/-- **C3.** Address decoder: version discriminant 4 yields the IPv4 payload,
6 yields the IPv6 payload, anything else fails with the invalid-address
error.  Net decoder: once the address has decoded to `a`, the decode fails
with the invalid-mask-length error exactly when the mask-length byte exceeds
`a`'s family bit width (32 for IPv4, 128 for IPv6), and otherwise returns
the address+mask value. -/
theorem c3_ip_and_net_decoders :
    (∀ ip : RawIp,
      (ip.version = 4 → parse_bgpstream_ip ip = .ok (.V4 ip.v4)) ∧
      (ip.version = 6 → parse_bgpstream_ip ip = .ok (.V6 ip.v6)) ∧
      (ip.version ≠ 4 → ip.version ≠ 6 →
        parse_bgpstream_ip ip = .error .InvalidIpAddress)) ∧
    (∀ (p : RawPfx) (a : IpAddr), parse_bgpstream_ip p.address = .ok a →
      ((parse_bgpstream_pfx p = .error .InvalidMaskLen ↔ a.maxMaskLen < p.mask_len) ∧
       (p.mask_len ≤ a.maxMaskLen →
         parse_bgpstream_pfx p = .ok { addr := a, mask_len := p.mask_len }))) := by
  constructor
  · intro ip
    refine ⟨fun h4 => ?_, fun h6 => ?_, fun h4 h6 => ?_⟩
    · simp [parse_bgpstream_ip, ADDR_VERSION_IPV4, h4]
    · simp [parse_bgpstream_ip, ADDR_VERSION_IPV4, ADDR_VERSION_IPV6, h6]
    · simp [parse_bgpstream_ip, ADDR_VERSION_IPV4, ADDR_VERSION_IPV6, h4, h6]
  · intro p a ha
    unfold parse_bgpstream_pfx
    rw [ha]
    unfold IpNet.new
    constructor
    · by_cases h : p.mask_len ≤ a.maxMaskLen <;> (simp [h]; try omega)
    · intro h
      simp [h]

/-- Witness for `c3_ip_and_net_decoders`: concrete inputs.  Version 7 is
rejected; `192.0.2.0` (IPv4) with mask 24 decodes while its family width 32
is below mask 33. -/
theorem c3_witness :
    parse_bgpstream_ip { version := 7, v4 := 0, v6 := [] } = .error .InvalidIpAddress ∧
    parse_bgpstream_pfx { address := sampleIp4, mask_len := 24 } =
      .ok { addr := .V4 3221226001, mask_len := 24 } ∧
    parse_bgpstream_pfx { address := sampleIp4, mask_len := 33 } =
      .error .InvalidMaskLen := by
  refine ⟨(c3_ip_and_net_decoders.1 _).2.2 (by decide) (by decide), ?_, ?_⟩
  · exact (c3_ip_and_net_decoders.2 { address := sampleIp4, mask_len := 24 }
      (.V4 3221226001) (by decide)).2 (by decide)
  · exact (c3_ip_and_net_decoders.2 { address := sampleIp4, mask_len := 33 }
      (.V4 3221226001) (by decide)).1.mpr (by decide)

/-! ## C5 — peer-state decode is a closed bijection -/

/-- **C5.** The peer-state decoder is a closed bijection between the 9 native
codes and the 9 `PeerState` values: decoding the code of any state gives that
state back (so the mapping is onto and invertible), any successful decode
comes from that state's code (so distinct states come from distinct codes),
and every code outside the 9 fails with `UnknownPeerState`. -/
theorem c5_peer_state_bijection :
    (∀ s : PeerState, PeerState.tryFrom (PeerState.code s) = .ok s) ∧
    (∀ (v : Nat) (s : PeerState), PeerState.tryFrom v = .ok s → v = PeerState.code s) ∧
    (∀ v : Nat, (∀ s : PeerState, v ≠ PeerState.code s) →
      PeerState.tryFrom v = .error .UnknownPeerState) := by
  refine ⟨?_, ?_, ?_⟩
  · intro s
    cases s <;> rfl
  · intro v s h
    unfold PeerState.tryFrom at h
    split_ifs at h with h0 h1 h2 h3 h4 h5 h6 h7 h8
    · injection h with h'
      subst h'
      exact h0
    · injection h with h'
      subst h'
      exact h1
    · injection h with h'
      subst h'
      exact h2
    · injection h with h'
      subst h'
      exact h3
    · injection h with h'
      subst h'
      exact h4
    · injection h with h'
      subst h'
      exact h5
    · injection h with h'
      subst h'
      exact h6
    · injection h with h'
      subst h'
      exact h7
    · injection h with h'
      subst h'
      exact h8
  · intro v h
    unfold PeerState.tryFrom
    split_ifs with h0 h1 h2 h3 h4 h5 h6 h7 h8
    · exact absurd h0 (h .Active)
    · exact absurd h1 (h .Clearing)
    · exact absurd h2 (h .Connect)
    · exact absurd h3 (h .Deleted)
    · exact absurd h4 (h .Established)
    · exact absurd h5 (h .Idle)
    · exact absurd h6 (h .OpenConfirm)
    · exact absurd h7 (h .OpenSent)
    · exact absurd h8 (h .Unknown)
    · rfl

/-- Witness for `c5_peer_state_bijection`: code 5 decodes to `Established`,
decoding `Established`'s own code returns it, and the out-of-range code 9
fails. -/
theorem c5_witness :
    PeerState.tryFrom 5 = .ok .Established ∧
    PeerState.tryFrom (PeerState.code .Established) = .ok .Established ∧
    PeerState.tryFrom 9 = .error .UnknownPeerState := by
  refine ⟨?_, c5_peer_state_bijection.1 .Established,
    c5_peer_state_bijection.2.2 9 (by intro s; cases s <;> decide)⟩
  have := c5_peer_state_bijection.1 .Established
  simpa [PeerState.code, ELEM_PEERSTATE_ESTABLISHED] using this

/-! ## C10 — the public `prefix()` accessor -/

/-- **C10.** `Element::prefix` returns the update's net for announcements and
RIB entries, the withdrawn net for withdrawals, and `None` for peer-state
changes. -/
theorem c10_pfx_accessor (el : Element) :
    (∀ u : Update, el.e = .Announcement u → Element.pfx el = some u.pfx) ∧
    (∀ u : Update, el.e = .RIB u → Element.pfx el = some u.pfx) ∧
    (∀ p : IpNet, el.e = .Withdrawal p → Element.pfx el = some p) ∧
    (∀ a b : PeerState, el.e = .PeerState a b → Element.pfx el = none) := by
  refine ⟨fun u h => ?_, fun u h => ?_, fun p h => ?_, fun a b h => ?_⟩ <;>
    simp [Element.pfx, h]

/-- Witness for `c10_pfx_accessor`: the concrete decoded withdrawal element
exposes its withdrawn net. -/
theorem c10_witness :
    Element.pfx sampleWithdrawElement = some { addr := .V4 3221226000, mask_len := 24 } :=
  (c10_pfx_accessor sampleWithdrawElement).2.2.1 _ rfl

/-! ## C4 — AS-path decoder -/

/-- Reading indices `0..l.length` of a list with `getD` reproduces the list. -/
theorem list_range_map_getD (l : List Nat) :
    (List.range l.length).map (fun i => l.getD i 0) = l := by
  induction l with
  | nil => rfl
  | cons a t ih =>
    rw [List.length_cons, List.range_succ_eq_map, List.map_cons, List.map_map]
    simp only [Function.comp_def, List.getD_cons_zero, List.getD_cons_succ]
    rw [ih]

/-- **C4.** The AS-path decoder returns exactly one `AsSegment` per raw
segment before the sentinel, in order: a segment tagged `ASN` becomes
`AsSegment.Num` of its single AS number; a segment with any other tag becomes
`AsSegment.Set` of exactly `asn_cnt` AS numbers read from the inline array in
encounter order (so when the count matches the array, the set is the array
itself); an empty segment sequence decodes to an empty path. -/
theorem c4_as_path_decoder :
    (∀ segs : List RawSeg, (extract_as_path segs).length = segs.length) ∧
    (∀ (s : RawSeg) (rest : List RawSeg),
      extract_as_path (s :: rest) = parse_as_path_seg s :: extract_as_path rest) ∧
    (∀ seg : RawSeg, seg.type_ = AS_PATH_SEG_ASN →
      parse_as_path_seg seg = .Num seg.asn) ∧
    (∀ seg : RawSeg, seg.type_ ≠ AS_PATH_SEG_ASN →
      ∃ l : List Nat, parse_as_path_seg seg = .Set l ∧ l.length = seg.asn_cnt) ∧
    (∀ seg : RawSeg, seg.type_ ≠ AS_PATH_SEG_ASN → seg.asn_cnt = seg.set_asns.length →
      parse_as_path_seg seg = .Set seg.set_asns) ∧
    extract_as_path [] = [] := by
  refine ⟨?_, ?_, ?_, ?_, ?_, rfl⟩
  · intro segs
    simp [extract_as_path]
  · intro s rest
    rfl
  · intro seg h
    simp [parse_as_path_seg, h]
  · intro seg h
    refine ⟨(List.range seg.asn_cnt).map (fun i => seg.set_asns.getD i 0), ?_, ?_⟩
    · rw [parse_as_path_seg, if_neg h]
    · simp
  · intro seg h hcnt
    rw [parse_as_path_seg, if_neg h, hcnt, list_range_map_getD]

/-- Witness for `c4_as_path_decoder`: the spec's examples — an `ASN(64512)`
segment becomes `Num 64512`, an AS-SET segment with count 2 and inline array
`[64512, 64513]` becomes `Set [64512, 64513]`, and the empty sequence decodes
to the empty path. -/
theorem c4_witness :
    parse_as_path_seg { type_ := AS_PATH_SEG_ASN, asn := 64512, asn_cnt := 0, set_asns := [] } =
      .Num 64512 ∧
    parse_as_path_seg { type_ := 2, asn := 0, asn_cnt := 2, set_asns := [64512, 64513] } =
      .Set [64512, 64513] ∧
    extract_as_path [] = [] :=
  ⟨c4_as_path_decoder.2.2.1 _ rfl,
   c4_as_path_decoder.2.2.2.2.1 _ (by decide) rfl,
   c4_as_path_decoder.2.2.2.2.2⟩

/-! ## C7 — per-element timestamp

The claim reads "the element's timestamp equals its own origin timestamp
(origin seconds plus origin microseconds) when the origin timestamp is
nonzero".  The code tests only the *seconds* field (`elem.orig_time_sec == 0`),
so an origin timestamp of 0 seconds + nonzero microseconds — which is nonzero
as a combined instant — still inherits the parent record's timestamp. -/

/-- A raw element whose origin timestamp is 0 seconds + 1 microsecond:
nonzero as an instant, yet the seconds field is zero. -/
def c7RawElem : RawElem := { sampleWithdrawElem with orig_time_usec := 1 }

/-- **C7, counterexample.** Decoded inside a record with timestamp 5000000 µs,
`c7RawElem`'s combined origin timestamp (1 µs) is nonzero, yet the decoded
element carries the record's 5000000 µs, not its own 1 µs — refuting the
claim at this input. -/
theorem c7_counterexample :
    c7RawElem.orig_time_sec * 1000000 + c7RawElem.orig_time_usec ≠ 0 ∧
    (Element.ofRaw 5000000 c7RawElem).map Element.time = .ok 5000000 ∧
    (5000000 : Nat) ≠ c7RawElem.orig_time_sec * 1000000 + c7RawElem.orig_time_usec := by
  refine ⟨by decide, by decide, by decide⟩

/-- **C7, amended.** For every successfully decoded element, the timestamp
equals the element's own origin timestamp (seconds · 10⁶ + microseconds)
when the origin *seconds field* is nonzero, and equals the parent record's
timestamp when the origin seconds field is zero (even if the origin
microseconds are nonzero). -/
theorem c7_amended (recTime : Nat) (e : RawElem) (el : Element)
    (h : Element.ofRaw recTime e = .ok el) :
    el.time = if e.orig_time_sec = 0 then recTime
              else e.orig_time_sec * 1000000 + e.orig_time_usec := by
  simp only [Element.ofRaw] at h
  repeat' split at h
  all_goals first
    | (injection h with h'; subst h'; simp [*])
    | simp at h

/-- Witness for `c7_amended` at a concrete input: the sample withdrawal
element (origin seconds 0) decoded inside a record stamped 42 µs. -/
theorem c7_amended_witness :
    ({ time := 42, peer_ip := .V4 3221226001, peer_asn := 64512,
       e := .Withdrawal { addr := .V4 3221226000, mask_len := 24 } } : Element).time =
      if sampleWithdrawElem.orig_time_sec = 0 then 42
      else sampleWithdrawElem.orig_time_sec * 1000000 + sampleWithdrawElem.orig_time_usec :=
  c7_amended 42 sampleWithdrawElem _ (by decide)

/-! ## C6 — optional fields gated by their has-flags -/

/-- **C6.** In every decoded `Update` payload (announcement or RIB entry),
MED and local-preference are present exactly when their has-flags are
nonzero — absent otherwise, regardless of the raw numeric payload — and the
origin type is absent when `has_origin` is zero and is the decoded
`{IGP, EGP, Incomplete}` value of the raw origin code when `has_origin` is
nonzero. -/
theorem c6_optional_fields (recTime : Nat) (e : RawElem) (el : Element) (u : Update)
    (h : Element.ofRaw recTime e = .ok el)
    (hu : el.e = .Announcement u ∨ el.e = .RIB u) :
    u.med = (if e.has_med ≠ 0 then some e.med else none) ∧
    u.local_pref = (if e.has_local_pref ≠ 0 then some e.local_pref else none) ∧
    (e.has_origin = 0 → u.origin_type = none) ∧
    (e.has_origin ≠ 0 →
      ∃ ot, OriginType.tryFrom e.origin = .ok ot ∧ u.origin_type = some ot) := by
  simp only [Element.ofRaw] at h
  cases hip : parse_bgpstream_ip e.peer_ip with
  | error er => simp [hip] at h
  | ok peer_ip =>
  simp only [hip] at h
  by_cases hty : e.type_ = ELEM_TYPE_ANNOUNCEMENT ∨ e.type_ = ELEM_TYPE_RIB
  case neg =>
    rw [if_neg hty] at h
    by_cases hps : e.type_ = ELEM_TYPE_PEERSTATE
    · rw [if_pos hps] at h
      cases ho : PeerState.tryFrom e.old_state with
      | error er => simp [ho] at h
      | ok s1 =>
        simp only [ho] at h
        cases hn : PeerState.tryFrom e.new_state with
        | error er => simp [hn] at h
        | ok s2 =>
          simp only [hn] at h
          injection h with h'
          subst h'
          simp at hu
    · rw [if_neg hps] at h
      by_cases hw : e.type_ = ELEM_TYPE_WITHDRAWAL
      · rw [if_pos hw] at h
        cases hp : parse_bgpstream_pfx e.pfx with
        | error er => simp [hp] at h
        | ok p =>
          simp only [hp] at h
          injection h with h'
          subst h'
          simp at hu
      · rw [if_neg hw] at h
        exact absurd h (by simp)
  case pos =>
    rw [if_pos hty] at h
    cases hpfx : parse_bgpstream_pfx e.pfx with
    | error er => simp [hpfx] at h
    | ok p =>
    simp only [hpfx] at h
    cases hnh : parse_bgpstream_ip e.nexthop with
    | error er => simp [hnh] at h
    | ok nh =>
    simp only [hnh] at h
    by_cases horig : e.has_origin ≠ 0
    · rw [if_pos horig] at h
      cases hot : OriginType.tryFrom e.origin with
      | error er => simp [hot, Except.map] at h
      | ok ot =>
        simp only [hot, Except.map] at h
        by_cases hann : e.type_ = ELEM_TYPE_ANNOUNCEMENT
        · rw [if_pos hann] at h
          injection h with h'
          subst h'
          simp only [ElementType.Announcement.injEq, reduceCtorEq, or_false] at hu
          subst hu
          exact ⟨rfl, rfl, fun h0 => absurd h0 horig, fun _ => ⟨ot, rfl, rfl⟩⟩
        · rw [if_neg hann] at h
          injection h with h'
          subst h'
          simp only [ElementType.RIB.injEq, reduceCtorEq, false_or] at hu
          subst hu
          exact ⟨rfl, rfl, fun h0 => absurd h0 horig, fun _ => ⟨ot, rfl, rfl⟩⟩
    · rw [if_neg horig] at h
      simp only [] at h
      by_cases hann : e.type_ = ELEM_TYPE_ANNOUNCEMENT
      · rw [if_pos hann] at h
        injection h with h'
        subst h'
        simp only [ElementType.Announcement.injEq, reduceCtorEq, or_false] at hu
        subst hu
        exact ⟨rfl, rfl, fun _ => rfl, fun hne => absurd hne horig⟩
      · rw [if_neg hann] at h
        injection h with h'
        subst h'
        simp only [ElementType.RIB.injEq, reduceCtorEq, false_or] at hu
        subst hu
        exact ⟨rfl, rfl, fun _ => rfl, fun hne => absurd hne horig⟩

/-- A raw announcement element with `has_med = 0` but a junk MED payload of
7, `has_local_pref ≠ 0` with value 100, and `has_origin ≠ 0` with the IGP
code. -/
def c6RawElem : RawElem :=
  { sampleWithdrawElem with
    type_ := ELEM_TYPE_ANNOUNCEMENT
    has_origin := 1
    origin := ORIGIN_IGP
    has_med := 0
    med := 7
    has_local_pref := 1
    local_pref := 100 }

/-- The `Update` payload that `c6RawElem` decodes to. -/
def c6Update : Update :=
  { pfx := { addr := .V4 3221226000, mask_len := 24 }
    next_hop := .V4 3221226001
    as_path := []
    communities := []
    origin_type := some .Igp
    med := none
    local_pref := some 100 }

/-- Witness for `c6_optional_fields` at a concrete input: decoding
`c6RawElem` (MED flag clear with junk payload 7, local-pref flag set with
value 100, origin flag set with the IGP code). -/
theorem c6_witness :
    c6Update.med = (if c6RawElem.has_med ≠ 0 then some c6RawElem.med else none) ∧
    c6Update.local_pref =
      (if c6RawElem.has_local_pref ≠ 0 then some c6RawElem.local_pref else none) ∧
    (c6RawElem.has_origin = 0 → c6Update.origin_type = none) ∧
    (c6RawElem.has_origin ≠ 0 →
      ∃ ot, OriginType.tryFrom c6RawElem.origin = .ok ot ∧ c6Update.origin_type = some ot) :=
  c6_optional_fields 1000000 c6RawElem
    { time := 1000000, peer_ip := .V4 3221226001, peer_asn := 64512,
      e := .Announcement c6Update }
    c6Update (by decide) (.inl rfl)

/-! ## Soundness of the fuel given to the iterator loop -/

/-- `Record::new` consumes exactly the head of the native pull sequence. -/
theorem Record.new_snd (src : List RawPull) : (Record.new src).2 = src.tail := by
  cases src with
  | nil => rfl
  | cons p rest => cases p <;> rfl

/-- An element pull can report "no more elements" only on an exhausted
record. -/
theorem Record.next_element_fst_ok_none (r x : Record)
    (h : Record.next_element r = (.ok none, x)) : r.elems = [] := by
  obtain ⟨time, elems⟩ := r
  cases elems with
  | nil => rfl
  | cons p rest =>
    exfalso
    cases p with
    | fail => simp [Record.next_element, Element.new] at h
    | nullElem => simp [Record.next_element, Element.new] at h
    | elem e =>
      cases hof : Element.ofRaw time e with
      | ok el => simp [Record.next_element, Element.new, hof] at h
      | error er => simp [Record.next_element, Element.new, hof] at h

/-- Any fuel above `measureFn` computes the same result: the loop always
returns before the fuel runs out, so `BgpStream.next` is the Rust loop. -/
theorem BgpStream.nextFuel_eq_of_lt :
    ∀ (f g : Nat) (s : BgpStream), BgpStream.measureFn s < f →
      BgpStream.measureFn s < g → BgpStream.nextFuel f s = BgpStream.nextFuel g s
  | 0, _, _, hf, _ => absurd hf (Nat.not_lt_zero _)
  | _ + 1, 0, _, _, hg => absurd hg (Nat.not_lt_zero _)
  | f + 1, g + 1, s, hf, hg => by
    obtain ⟨src, cur⟩ := s
    cases cur with
    | none =>
      rcases hnew : Record.new src with ⟨res, src'⟩
      have hsnd : src' = src.tail := by
        have h2 := Record.new_snd src
        rw [hnew] at h2
        exact h2
      cases res with
      | error e => simp only [BgpStream.nextFuel, hnew]
      | ok o =>
        cases o with
        | none => simp only [BgpStream.nextFuel, hnew]
        | some r =>
          have hne : src ≠ [] := by
            intro hnil
            subst hnil
            simp [Record.new] at hnew
          have hlen : src'.length + 1 = src.length := by
            subst hsnd
            cases src with
            | nil => exact absurd rfl hne
            | cons a t => simp
          have hm : BgpStream.measureFn ⟨src', some r⟩ ≤ 2 * src'.length + 2 := by
            simp only [BgpStream.measureFn]
            split <;> omega
          have hms : BgpStream.measureFn ⟨src, none⟩ = 2 * src.length + 1 := rfl
          rw [hms] at hf hg
          simp only [BgpStream.nextFuel, hnew]
          exact BgpStream.nextFuel_eq_of_lt f g ⟨src', some r⟩ (by omega) (by omega)
    | some r =>
      rcases hel : Record.next_element r with ⟨res, r'⟩
      cases res with
      | error e => simp only [BgpStream.nextFuel, hel]
      | ok o =>
        cases o with
        | some el => simp only [BgpStream.nextFuel, hel]
        | none =>
          have hre : r.elems = [] := Record.next_element_fst_ok_none r r' hel
          have hms : BgpStream.measureFn ⟨src, some r⟩ = 2 * src.length + 2 := by
            simp [BgpStream.measureFn, hre]
          have hmn : BgpStream.measureFn ⟨src, none⟩ = 2 * src.length + 1 := rfl
          rw [hms] at hf hg
          simp only [BgpStream.nextFuel, hel]
          exact BgpStream.nextFuel_eq_of_lt f g ⟨src, none⟩ (by omega) (by omega)

/-! ## C1 — `OutsideTimeInterval` and the flattening iterator

The claim says an `OutsideTimeInterval` pull is skipped: the iterator loops,
pulls again, and the status is never observable as an item or as end of
sequence.  In the code, `Record::new` maps `OUTSIDE_TIME_INTERVAL` to
`Ok(None)` — the same value as end of stream — and
`<BgpStream as Iterator>::next` returns `None` on `Ok(None)`.  The iterator
therefore *terminates* instead of pulling again. -/

/-- **C1, counterexample.** With the source holding an `OutsideTimeInterval`
pull followed by a valid record with one element, the first `next()` returns
`None` (end of sequence observed by the caller) even though a decodable
element was still available behind the skipped status — refuting "does not
terminate / never observable as end of sequence" at this input. -/
theorem c1_counterexample :
    BgpStream.next { source := [sampleOutsidePull, sampleValidPull], current_record := none } =
      (none, { source := [sampleValidPull], current_record := none }) ∧
    (BgpStream.next { source := [sampleValidPull], current_record := none }).1 =
      some (.ok sampleWithdrawElement) :=
  ⟨by decide, by decide⟩

/-- **C1, amended.** When the next-record pull returns status
`OutsideTimeInterval`, `Record::new` returns `Ok(None)` — the same value as
end of stream — and the flattening iterator emits no item and terminates the
sequence right there (it does not pull again); the status is observable by
the caller as end of sequence. -/
theorem c1_amended (r : RawRecord) (rest : List RawPull)
    (h : r.status = RECORD_STATUS_OUTSIDE_TIME_INTERVAL) :
    Record.new (.record r :: rest) = (.ok none, rest) ∧
    BgpStream.next { source := .record r :: rest, current_record := none } =
      (none, { source := rest, current_record := none }) := by
  have hnew : Record.new (.record r :: rest) = (.ok none, rest) := by
    simp [Record.new, h, RECORD_STATUS_OUTSIDE_TIME_INTERVAL, RECORD_STATUS_VALID_RECORD,
      RECORD_STATUS_FILTERED_SOURCE, RECORD_STATUS_EMPTY_SOURCE, RECORD_STATUS_CORRUPTED_SOURCE]
  refine ⟨hnew, ?_⟩
  show BgpStream.nextFuel _ _ = _
  simp only [BgpStream.nextFuel, hnew]

/-- Witness for `c1_amended` at a concrete input. -/
theorem c1_amended_witness :
    Record.new [sampleOutsidePull] = (.ok none, []) ∧
    BgpStream.next { source := [sampleOutsidePull], current_record := none } =
      (none, { source := [], current_record := none }) :=
  c1_amended
    { status := RECORD_STATUS_OUTSIDE_TIME_INTERVAL, time_sec := 0, time_usec := 0, elems := [] }
    [] rfl

/-! ## C2 — error emission and (non-)termination of the iterator

The claim says that after the iterator emits an error item, no later call to
`next()` yields any further item.  The code returns `Some(Err(e))` but leaves
the stream in an ordinary state (buffer cleared after a record-pull error,
buffered record kept after an element-pull error); nothing marks the
sequence terminated, and the next call pulls again. -/

/-- The stream state at the start of the C2 scenario: a `CorruptedRecord`
pull followed by a valid record holding one element, with no buffered
record. -/
def c2StartStream : BgpStream :=
  { source := [sampleCorruptedPull, sampleValidPull], current_record := none }

/-- **C2, counterexample.** With the source holding a `CorruptedRecord` pull
followed by a valid record with one element, the first `next()` emits the
error item, and the *second* `next()` yields a further (non-error) item —
refuting "no call to next() after the error item yields any further item". -/
theorem c2_counterexample :
    (BgpStream.next c2StartStream).1 = some (.error .RecordCorrupted) ∧
    (BgpStream.next (BgpStream.next c2StartStream).2).1 =
      some (.ok sampleWithdrawElement) :=
  ⟨by decide, by decide⟩

/-- **C2, amended.** When a record pull or an element pull yields an error,
the flattening iterator emits exactly one error item for that pull; but the
iterator is not fused: the error leaves the stream in an ordinary state (the
source simply advanced past the failing pull; after an element-pull error the
current record is even retained), so a subsequent `next()` pulls again and
may yield further items — treating the sequence as terminated is a contract
on the caller, not enforced by the code. -/
theorem c2_amended :
    (∀ (src src' : List RawPull) (e : BgpStreamError),
      Record.new src = (.error e, src') →
      BgpStream.next { source := src, current_record := none } =
        (some (.error e), { source := src', current_record := none })) ∧
    (∀ (src : List RawPull) (r r' : Record) (e : BgpStreamError),
      Record.next_element r = (.error e, r') →
      BgpStream.next { source := src, current_record := some r } =
        (some (.error e), { source := src, current_record := some r' })) := by
  constructor
  · intro src src' e h
    show BgpStream.nextFuel _ _ = _
    simp only [BgpStream.nextFuel, h]
  · intro src r r' e h
    show BgpStream.nextFuel _ _ = _
    simp only [BgpStream.nextFuel, h]

/-- Witness for `c2_amended` at concrete inputs: a corrupted-record pull at
the record level, and a failing element pull at the element level. -/
theorem c2_amended_witness :
    BgpStream.next { source := [sampleCorruptedPull], current_record := none } =
      (some (.error .RecordCorrupted), { source := [], current_record := none }) ∧
    BgpStream.next { source := [], current_record := some { time := 0, elems := [.fail] } } =
      (some (.error .GetNextElement),
       { source := [], current_record := some { time := 0, elems := [] } }) :=
  ⟨c2_amended.1 _ _ _ (by decide), c2_amended.2 _ _ _ _ (by decide)⟩

/-! ## C8 — `next_record` and the buffered record -/

/-- **C8.** If a record is buffered in `current_record` (left over from the
`Iterator` interface), `BgpStream::next_record` returns exactly that record
and clears the buffer, leaving the native source untouched (no pull outcome
is consumed); with an empty buffer it delegates to `Record::new`, which pulls
from the source. -/
theorem c8_next_record_buffer (s : BgpStream) :
    (∀ r : Record, s.current_record = some r →
      BgpStream.next_record s =
        (.ok (some r), { source := s.source, current_record := none })) ∧
    (∀ (res : Except BgpStreamError (Option Record)) (src' : List RawPull),
      s.current_record = none → Record.new s.source = (res, src') →
      BgpStream.next_record s = (res, { source := src', current_record := none })) := by
  obtain ⟨src, cur⟩ := s
  constructor
  · intro r hr
    cases hr
    rfl
  · intro res src' hc hrec
    cases hc
    simp only [BgpStream.next_record, hrec]

/-- Witness for `c8_next_record_buffer` at concrete inputs: a buffered record
is returned with the source untouched, and with an empty buffer the source is
pulled. -/
theorem c8_witness :
    BgpStream.next_record
        { source := [sampleValidPull], current_record := some { time := 7, elems := [] } } =
      (.ok (some { time := 7, elems := [] }),
       { source := [sampleValidPull], current_record := none }) ∧
    BgpStream.next_record { source := [sampleCorruptedPull], current_record := none } =
      (.error .RecordCorrupted, { source := [], current_record := none }) :=
  ⟨(c8_next_record_buffer _).1 _ rfl, (c8_next_record_buffer _).2 _ _ rfl (by decide)⟩

/-! ## C9 — interval endpoints truncated to `u32`, `stop = None` as sentinel 0 -/

/-- **C9.** Applying `FilterInterval::Interval { start, stop }` converts both
epoch-second endpoints with `as u32` — i.e. takes them modulo 2³² — and
passes `stop = None` as the sentinel `0`; consequently an explicit stop whose
epoch value is a multiple of 2³² (including 0 itself) is passed to the data
source identically to `stop = None`. -/
theorem c9_interval_truncation :
    (∀ (start : Int) (stop : Option Int),
      interval_filter_args start stop =
        ((start % 2 ^ 32).toNat,
         match stop with
         | none => 0
         | some t => (t % 2 ^ 32).toNat)) ∧
    (∀ (start t : Int), t % 2 ^ 32 = 0 →
      interval_filter_args start (some t) = interval_filter_args start none) := by
  constructor
  · intro start stop
    cases stop <;> rfl
  · intro start t ht
    have ht2 : t % (4294967296 : Int) = 0 := by
      norm_num at ht
      omega
    simp [interval_filter_args, i64_as_u32, ht2]

/-- Witness for `c9_interval_truncation`: an explicit stop of 2³² epoch
seconds is passed exactly like `stop = None`. -/
theorem c9_witness :
    interval_filter_args 1699437300 (some (2 ^ 32)) = interval_filter_args 1699437300 none :=
  c9_interval_truncation.2 1699437300 (2 ^ 32) (by decide)
